import Mathlib

/-!
Verification of the ident-field initializer generator of the darling crate
(src/core/src/util/ident_field.rs and src/core/src/codegen/ident_field.rs).

Token streams produced by the quote! templating primitive are modelled as
lists of tokens (`List String`); an interpolated value (#ident, #ty,
#callable, #input) splices its own tokens into the skeleton.
-/

/-- A syn::Ident: a single identifier token. -/
abbrev Ident := String

/-- A proc_macro2::TokenStream, modelled as the list of its tokens. -/
abbrev TokenStream := List String

/-- A syn::Type, kept abstract as its token stream. -/
abbrev SynType := TokenStream

/-- A util::Callable (a user-supplied function or closure expression), kept
abstract as its token stream. -/
abbrev Callable := TokenStream

/-- Field used for an `ident: Ident` (util/ident_field.rs, struct IdentField):
the identifier itself, the type of the ident (only used when `with` is present,
as the return type of the transform), and the optional `#[darling(with = ...)]`
callable. The Rust field `with` is spelled `with_` because `with` is a Lean
keyword. -/
structure IdentField where
  ident : Ident
  ty : SynType
  with_ : Option Callable
  deriving Repr, DecidableEq

namespace IdentField

/-- util/ident_field.rs, IdentField::create_field_inner: if the descriptor has
a `with` callable, emit
`#ident: ::darling::export::identity::<fn(#input_ty) -> ::darling::Result<#ty>>(#callable)(#input)?,`
where #input_ty is `::darling::export::Option<::darling::export::syn::Ident>`
when `is_option_ident` and `::darling::export::syn::Ident` otherwise; if there
is no callable, emit `#ident: #input,`. -/
def create_field_inner (self : IdentField) (input : TokenStream)
    (is_option_ident : Bool) : TokenStream :=
  let ident := self.ident
  match self.with_ with
  | some callable =>
      let ty := self.ty
      let input_ty : TokenStream :=
        if is_option_ident then
          ["::", "darling", "::", "export", "::", "Option", "<",
           "::", "darling", "::", "export", "::", "syn", "::", "Ident", ">"]
        else
          ["::", "darling", "::", "export", "::", "syn", "::", "Ident"]
      [ident, ":", "::", "darling", "::", "export", "::", "identity",
       "::", "<", "fn", "("]
        ++ input_ty
        ++ [")", "->", "::", "darling", "::", "Result", "<"]
        ++ ty
        ++ [">", ">", "("]
        ++ callable
        ++ [")", "("]
        ++ input
        ++ [")", "?", ","]
  | none => [ident, ":"] ++ input ++ [","]

/-- util/ident_field.rs, IdentField::create_field_optional: creates a field
literal `field: Option<T>,`. -/
def create_field_optional (self : IdentField) (input : TokenStream) :
    TokenStream :=
  self.create_field_inner input true

/-- util/ident_field.rs, IdentField::create_field: creates a field literal
`field: T,`. -/
def create_field (self : IdentField) (input : TokenStream) : TokenStream :=
  self.create_field_inner input false

end IdentField

/-- Modelled from the spec: the `ForwardedField` descriptor record consumed by
codegen/ident_field.rs is defined in the options module, outside this excerpt;
only the three accessors the generator reads are modelled: the field name, its
declared type, and the optional transform. -/
structure ForwardedField where
  ident : Ident
  ty : SynType
  with_ : Option Callable
  deriving Repr, DecidableEq

namespace codegen

/-- codegen/ident_field.rs, create_inner: identical skeleton to
IdentField::create_field_inner except that every darling path is rooted at the
`_darling` alias instead of `::darling`. -/
def create_inner (ident_field : ForwardedField) (input : TokenStream)
    (is_option_ident : Bool) : TokenStream :=
  let ident := ident_field.ident
  match ident_field.with_ with
  | some callable =>
      let ty := ident_field.ty
      let input_ty : TokenStream :=
        if is_option_ident then
          ["_darling", "::", "export", "::", "Option", "<",
           "_darling", "::", "export", "::", "syn", "::", "Ident", ">"]
        else
          ["_darling", "::", "export", "::", "syn", "::", "Ident"]
      [ident, ":", "_darling", "::", "export", "::", "identity",
       "::", "<", "fn", "("]
        ++ input_ty
        ++ [")", "->", "_darling", "::", "Result", "<"]
        ++ ty
        ++ [">", ">", "("]
        ++ callable
        ++ [")", "("]
        ++ input
        ++ [")", "?", ","]
  | none => [ident, ":"] ++ input ++ [","]

/-- codegen/ident_field.rs, create_optional: creates a field literal
`field: Option<T>,`. -/
def create_optional (ident_field : ForwardedField) (input : TokenStream) :
    TokenStream :=
  create_inner ident_field input true

/-- codegen/ident_field.rs, create: creates a field literal `field: T,`. -/
def create (ident_field : ForwardedField) (input : TokenStream) :
    TokenStream :=
  create_inner ident_field input false

end codegen

/-- Modelled from the spec: the structured error kinds visible in this excerpt
of darling's Error type: a custom-message error and an
unrecognized-configuration-key error. -/
inductive ErrorKind where
  | custom (msg : String)
  | unknownField (path : String)
  deriving Repr, DecidableEq

/-- Modelled from the spec: a darling Error, "a structured, span-attributed"
error: a kind together with an optional source span. Source spans are opaque
and modelled as natural numbers. -/
structure Error where
  kind : ErrorKind
  span : Option Nat
  deriving Repr, DecidableEq

namespace Error

/-- Modelled from the spec: Error::custom builds a custom-message error with no
span attached yet. -/
def custom (msg : String) : Error :=
  { kind := ErrorKind.custom msg, span := none }

/-- Modelled from the spec: Error::unknown_field_path builds an "unrecognized
field" error rendering the offending path. -/
def unknown_field_path (path : List String) : Error :=
  { kind := ErrorKind.unknownField (String.intercalate "::" path),
    span := none }

/-- Modelled from the spec: Error::with_span attaches the offending source
location when the error does not already carry one. -/
def with_span (self : Error) (span : Nat) : Error :=
  match self.span with
  | some _ => self
  | none => { self with span := some span }

end Error

deriving instance DecidableEq for Except

/-- Modelled from the spec: the slice of a syn::Meta needed by parse_nested:
its path (a list of segments), the outcome of the external meta-value parsing
contract on its value ("given a configuration key's associated value syntax,
produce either a parsed transform reference or a structured parse error"), and
its source span. -/
structure Meta where
  path : List String
  parsedCallable : Except String Callable
  span : Nat
  deriving Repr, DecidableEq

/-- syn::Path::is_ident: the path consists of exactly one segment equal to the
given identifier. -/
def is_ident (path : List String) (s : String) : Bool :=
  path == [s]

/-- Modelled from the spec: FromMeta::from_meta at type Option Callable
(outside this excerpt): interpret the attribute value as a callable reference,
wrapped in some on success; malformed transform-reference syntax surfaces as a
parse error from the generic meta-value-parsing contract, carrying the meta
item's span. -/
def from_meta (mi : Meta) : Except Error (Option Callable) :=
  match mi.parsedCallable with
  | Except.ok c => Except.ok (some c)
  | Except.error msg => Except.error ((Error.custom msg).with_span mi.span)

/-- util/ident_field.rs, ParseAttribute::parse_nested for IdentField: if the
meta path is the single identifier `with`, parse the value via from_meta and
assign it to the `with` field, propagating parse failure; otherwise return an
unknown-field error on the path, with the meta item's span. The Rust method
mutates self and returns Result of unit; it is embedded as a function
returning the result together with the resulting descriptor. -/
def IdentField.parse_nested (self : IdentField) (mi : Meta) :
    Except Error Unit × IdentField :=
  let path := mi.path
  if is_ident path "with" then
    match from_meta mi with
    | Except.ok v => (Except.ok (), { self with with_ := v })
    | Except.error e => (Except.error e, self)
  else
    (Except.error ((Error.unknown_field_path path).with_span mi.span), self)

/-- util/ident_field.rs, require_ident: attaches the error message "expected
identifier" to an Option Ident, turning it into a darling Result of Ident
(ok_or_else unfolded). -/
def require_ident (ident : Option Ident) : Except Error Ident :=
  match ident with
  | some i => Except.ok i
  | none => Except.error (Error.custom "expected identifier")

/-- Common skeleton shared by the two duplicated generators, parameterized by
the tokens of the darling crate root path: `:: darling` in the util module,
`_darling` in the codegen module. Used to state in exactly what sense the two
modules are structurally identical. -/
def create_inner_common (root : TokenStream) (ident : Ident) (ty : SynType)
    (w : Option Callable) (input : TokenStream) (is_option_ident : Bool) :
    TokenStream :=
  match w with
  | some callable =>
      let input_ty : TokenStream :=
        if is_option_ident then
          root ++ ["::", "export", "::", "Option", "<"]
            ++ root ++ ["::", "export", "::", "syn", "::", "Ident", ">"]
        else
          root ++ ["::", "export", "::", "syn", "::", "Ident"]
      [ident, ":"] ++ root
        ++ ["::", "export", "::", "identity", "::", "<", "fn", "("]
        ++ input_ty
        ++ [")", "->"] ++ root ++ ["::", "Result", "<"]
        ++ ty
        ++ [">", ">", "("]
        ++ callable
        ++ [")", "("]
        ++ input
        ++ [")", "?", ","]
  | none => [ident, ":"] ++ input ++ [","]

/-- Helper: the util generator is the common skeleton at root `:: darling`. -/
theorem util_inner_eq_common (d : IdentField) (v : TokenStream) (b : Bool) :
    d.create_field_inner v b
      = create_inner_common ["::", "darling"] d.ident d.ty d.with_ v b := by
  cases hw : d.with_ with
  | none => simp [IdentField.create_field_inner, create_inner_common, hw]
  | some c =>
      cases b <;>
        simp [IdentField.create_field_inner, create_inner_common, hw]

/-- Helper: the codegen generator is the common skeleton at root `_darling`. -/
theorem codegen_inner_eq_common (g : ForwardedField) (v : TokenStream)
    (b : Bool) :
    codegen.create_inner g v b
      = create_inner_common ["_darling"] g.ident g.ty g.with_ v b := by
  cases hw : g.with_ with
  | none => simp [codegen.create_inner, create_inner_common, hw]
  | some c =>
      cases b <;> simp [codegen.create_inner, create_inner_common, hw]

/-- Helper: the common skeleton always emits a fragment ending in a comma. -/
theorem common_trailing_comma (root : TokenStream) (i : Ident) (t : SynType)
    (w : Option Callable) (v : TokenStream) (b : Bool) :
    ∃ l, create_inner_common root i t w v b = l ++ [","] := by
  cases w with
  | none => exact ⟨[i, ":"] ++ v, by simp [create_inner_common]⟩
  | some c =>
      cases b with
      | false =>
          refine ⟨[i, ":"] ++ root
            ++ ["::", "export", "::", "identity", "::", "<", "fn", "("]
            ++ (root ++ ["::", "export", "::", "syn", "::", "Ident"])
            ++ [")", "->"] ++ root ++ ["::", "Result", "<"] ++ t
            ++ [">", ">", "("] ++ c ++ [")", "("] ++ v ++ [")", "?"], ?_⟩
          simp [create_inner_common]
      | true =>
          refine ⟨[i, ":"] ++ root
            ++ ["::", "export", "::", "identity", "::", "<", "fn", "("]
            ++ (root ++ ["::", "export", "::", "Option", "<"]
                ++ root ++ ["::", "export", "::", "syn", "::", "Ident", ">"])
            ++ [")", "->"] ++ root ++ ["::", "Result", "<"] ++ t
            ++ [">", ">", "("] ++ c ++ [")", "("] ++ v ++ [")", "?"], ?_⟩
          simp [create_inner_common]

/-- Claim C1: for every descriptor whose transform is some f and every input
v, the required entry points (IdentField::create_field and codegen create,
each via their private inner routine) emit the fragment that ascribes f to the
explicit function type fn(syn::Ident) -> darling::Result<declared type>
(through the identity turbofish), invokes it with v, propagates failure
outward with the try operator `?`, and binds the success value to the field
name. -/
theorem c1_required_transform_fragment (i : Ident) (t : SynType) (f : Callable)
    (v : TokenStream) :
    IdentField.create_field { ident := i, ty := t, with_ := some f } v
      = [i, ":", "::", "darling", "::", "export", "::", "identity", "::", "<",
         "fn", "(", "::", "darling", "::", "export", "::", "syn", "::",
         "Ident", ")", "->", "::", "darling", "::", "Result", "<"]
        ++ t ++ [">", ">", "("] ++ f ++ [")", "("] ++ v ++ [")", "?", ","] ∧
    codegen.create { ident := i, ty := t, with_ := some f } v
      = [i, ":", "_darling", "::", "export", "::", "identity", "::", "<",
         "fn", "(", "_darling", "::", "export", "::", "syn", "::",
         "Ident", ")", "->", "_darling", "::", "Result", "<"]
        ++ t ++ [">", ">", "("] ++ f ++ [")", "("] ++ v ++ [")", "?", ","] := by
  constructor
  · simp [IdentField.create_field, IdentField.create_field_inner]
  · simp [codegen.create, codegen.create_inner]

/-- Claim C2: for every descriptor whose transform is none and every input,
all four generation entry points emit exactly the direct binding
`field: input,` with no wrapping, no type ascription and no fallibility; the
optional and required entry points agree, and the output does not depend on
the declared type t. -/
theorem c2_no_transform_direct_binding (i : Ident) (t : SynType)
    (v : TokenStream) :
    IdentField.create_field_optional { ident := i, ty := t, with_ := none } v
        = [i, ":"] ++ v ++ [","] ∧
    IdentField.create_field { ident := i, ty := t, with_ := none } v
        = [i, ":"] ++ v ++ [","] ∧
    codegen.create_optional { ident := i, ty := t, with_ := none } v
        = [i, ":"] ++ v ++ [","] ∧
    codegen.create { ident := i, ty := t, with_ := none } v
        = [i, ":"] ++ v ++ [","] := by
  refine ⟨?_, ?_, ?_, ?_⟩
  · simp [IdentField.create_field_optional, IdentField.create_field_inner]
  · simp [IdentField.create_field, IdentField.create_field_inner]
  · simp [codegen.create_optional, codegen.create_inner]
  · simp [codegen.create, codegen.create_inner]

/-- Claim C3: for every descriptor whose transform is some f and every input,
the optional entry point ascribes f as accepting an Option-wrapped
syn::Ident while the required entry point ascribes f as accepting a bare
syn::Ident, and the two emitted fragments share the same prefix and the same
suffix, differing only in that ascribed input type; this holds in both
modules. -/
theorem c3_optional_vs_required_differ_only_in_input_type (i : Ident)
    (t : SynType) (f : Callable) (v : TokenStream) :
    IdentField.create_field_optional { ident := i, ty := t, with_ := some f } v
      = [i, ":", "::", "darling", "::", "export", "::", "identity", "::", "<",
         "fn", "("]
        ++ ["::", "darling", "::", "export", "::", "Option", "<",
            "::", "darling", "::", "export", "::", "syn", "::", "Ident", ">"]
        ++ ([")", "->", "::", "darling", "::", "Result", "<"] ++ t
            ++ [">", ">", "("] ++ f ++ [")", "("] ++ v ++ [")", "?", ","]) ∧
    IdentField.create_field { ident := i, ty := t, with_ := some f } v
      = [i, ":", "::", "darling", "::", "export", "::", "identity", "::", "<",
         "fn", "("]
        ++ ["::", "darling", "::", "export", "::", "syn", "::", "Ident"]
        ++ ([")", "->", "::", "darling", "::", "Result", "<"] ++ t
            ++ [">", ">", "("] ++ f ++ [")", "("] ++ v ++ [")", "?", ","]) ∧
    codegen.create_optional { ident := i, ty := t, with_ := some f } v
      = [i, ":", "_darling", "::", "export", "::", "identity", "::", "<",
         "fn", "("]
        ++ ["_darling", "::", "export", "::", "Option", "<",
            "_darling", "::", "export", "::", "syn", "::", "Ident", ">"]
        ++ ([")", "->", "_darling", "::", "Result", "<"] ++ t
            ++ [">", ">", "("] ++ f ++ [")", "("] ++ v ++ [")", "?", ","]) ∧
    codegen.create { ident := i, ty := t, with_ := some f } v
      = [i, ":", "_darling", "::", "export", "::", "identity", "::", "<",
         "fn", "("]
        ++ ["_darling", "::", "export", "::", "syn", "::", "Ident"]
        ++ ([")", "->", "_darling", "::", "Result", "<"] ++ t
            ++ [">", ">", "("] ++ f ++ [")", "("] ++ v ++ [")", "?", ","]) := by
  refine ⟨?_, ?_, ?_, ?_⟩
  · simp [IdentField.create_field_optional, IdentField.create_field_inner]
  · simp [IdentField.create_field, IdentField.create_field_inner]
  · simp [codegen.create_optional, codegen.create_inner]
  · simp [codegen.create, codegen.create_inner]

/-- Claim C4: for every meta item whose path is not the single key `with`,
parse_nested returns the structured unknown-field error rendering that path
and carrying the meta item's source span, and leaves the descriptor exactly as
it was; it is a total function, so it neither panics nor silently ignores the
key. -/
theorem c4_unknown_key_error (self : IdentField) (mi : Meta)
    (h : is_ident mi.path "with" = false) :
    IdentField.parse_nested self mi
      = (Except.error
          { kind := ErrorKind.unknownField (String.intercalate "::" mi.path),
            span := some mi.span },
         self) := by
  simp [IdentField.parse_nested, h, Error.unknown_field_path, Error.with_span]

/-- Witness for C4 at a concrete unknown key. -/
theorem c4_unknown_key_error_witness :
    is_ident ["skip"] "with" = false ∧
    IdentField.parse_nested { ident := "x", ty := ["T"], with_ := some ["f"] }
        { path := ["skip"], parsedCallable := Except.error "no value",
          span := 7 }
      = (Except.error { kind := ErrorKind.unknownField "skip", span := some 7 },
         { ident := "x", ty := ["T"], with_ := some ["f"] }) :=
  ⟨by decide, c4_unknown_key_error _ _ (by decide)⟩

/-- Counterexample for C5: at the concrete descriptor with ident x, type T and
transform f, and input v, the codegen entry point and the util entry point
emit different fragments: codegen roots the darling paths at the `_darling`
alias while util roots them at `::darling`. -/
theorem c5_counterexample :
    codegen.create { ident := "x", ty := ["T"], with_ := some ["f"] } ["v"]
      ≠ IdentField.create_field
          { ident := "x", ty := ["T"], with_ := some ["f"] } ["v"] := by
  decide

/-- Claim C5 (amended): the two duplicated generators are structurally
identical and agree up to the root path of the darling crate: both inner
routines equal one common skeleton, instantiated at root `:: darling` for the
util module and at root `_darling` for the codegen module; on descriptors with
no transform, where the skeleton does not mention the root, the two emitted
fragments are literally equal. -/
theorem c5_duplicated_generators_agree_up_to_root (i : Ident) (t : SynType)
    (w : Option Callable) (v : TokenStream) (b : Bool) :
    IdentField.create_field_inner { ident := i, ty := t, with_ := w } v b
      = create_inner_common ["::", "darling"] i t w v b ∧
    codegen.create_inner { ident := i, ty := t, with_ := w } v b
      = create_inner_common ["_darling"] i t w v b ∧
    IdentField.create_field_inner { ident := i, ty := t, with_ := none } v b
      = codegen.create_inner { ident := i, ty := t, with_ := none } v b := by
  refine ⟨util_inner_eq_common _ v b, codegen_inner_eq_common _ v b, ?_⟩
  simp [IdentField.create_field_inner, codegen.create_inner]

/-- Claim C6: both generation entry points of both modules are deterministic
pure functions of the pair of descriptor and input: two invocations with equal
arguments yield identical emitted fragments, with no dependence on any other
state. -/
theorem c6_generator_deterministic (d d2 : IdentField) (g g2 : ForwardedField)
    (v v2 u u2 : TokenStream) (hd : d = d2) (hv : v = v2) (hg : g = g2)
    (hu : u = u2) :
    IdentField.create_field_optional d v
        = IdentField.create_field_optional d2 v2 ∧
    IdentField.create_field d v = IdentField.create_field d2 v2 ∧
    codegen.create_optional g u = codegen.create_optional g2 u2 ∧
    codegen.create g u = codegen.create g2 u2 := by
  subst hd
  subst hv
  subst hg
  subst hu
  exact ⟨rfl, rfl, rfl, rfl⟩

/-- Witness for C6 at a concrete descriptor and input. -/
theorem c6_generator_deterministic_witness :
    IdentField.create_field_optional
        { ident := "x", ty := ["T"], with_ := some ["f"] } ["v"]
      = IdentField.create_field_optional
        { ident := "x", ty := ["T"], with_ := some ["f"] } ["v"] ∧
    IdentField.create_field
        { ident := "x", ty := ["T"], with_ := some ["f"] } ["v"]
      = IdentField.create_field
        { ident := "x", ty := ["T"], with_ := some ["f"] } ["v"] ∧
    codegen.create_optional
        { ident := "x", ty := ["T"], with_ := some ["f"] } ["v"]
      = codegen.create_optional
        { ident := "x", ty := ["T"], with_ := some ["f"] } ["v"] ∧
    codegen.create { ident := "x", ty := ["T"], with_ := some ["f"] } ["v"]
      = codegen.create { ident := "x", ty := ["T"], with_ := some ["f"] } ["v"] :=
  c6_generator_deterministic _ _ _ _ _ _ _ _ rfl rfl rfl rfl

/-- Claim C7: parsing a meta item whose path is the single key `with` and
whose value the meta-value contract parses to the callable c succeeds,
returning ok and a descriptor identical to the original except that its
transform is some c — the same callable on inspection. -/
theorem c7_with_key_roundtrip (self : IdentField) (c : Callable) (sp : Nat) :
    IdentField.parse_nested self
        { path := ["with"], parsedCallable := Except.ok c, span := sp }
      = (Except.ok (), { self with with_ := some c }) := by
  simp [IdentField.parse_nested, is_ident, from_meta]

/-- Claim C8: the generator is total: for every descriptor and input both
entry points of both modules return a code fragment — concretely, a token
list ending in the trailing comma — and, the embedding being a total
function, they never fail, panic or diverge at generation time. -/
theorem c8_generator_total (d : IdentField) (g : ForwardedField)
    (v u : TokenStream) :
    (∃ l, IdentField.create_field_optional d v = l ++ [","]) ∧
    (∃ l, IdentField.create_field d v = l ++ [","]) ∧
    (∃ l, codegen.create_optional g u = l ++ [","]) ∧
    (∃ l, codegen.create g u = l ++ [","]) := by
  refine ⟨?_, ?_, ?_, ?_⟩
  · rw [IdentField.create_field_optional, util_inner_eq_common]
    exact common_trailing_comma _ _ _ _ _ _
  · rw [IdentField.create_field, util_inner_eq_common]
    exact common_trailing_comma _ _ _ _ _ _
  · rw [codegen.create_optional, codegen_inner_eq_common]
    exact common_trailing_comma _ _ _ _ _ _
  · rw [codegen.create, codegen_inner_eq_common]
    exact common_trailing_comma _ _ _ _ _ _

/-- Claim C9: parse_nested is atomic on every error: whenever its result is an
error — for an unknown key or for a failing meta-value parse of the `with`
value — the returned descriptor is exactly the one passed in. -/
theorem c9_parse_nested_atomic_on_error (self : IdentField) (mi : Meta)
    (e : Error) (h : (IdentField.parse_nested self mi).1 = Except.error e) :
    (IdentField.parse_nested self mi).2 = self := by
  cases hw : is_ident mi.path "with" with
  | false => simp [IdentField.parse_nested, hw]
  | true =>
      cases hfm : from_meta mi with
      | ok w => simp [IdentField.parse_nested, hw, hfm] at h
      | error e2 => simp [IdentField.parse_nested, hw, hfm]

/-- Witness for C9 at a concrete meta item whose `with` value fails to
parse. -/
theorem c9_parse_nested_atomic_on_error_witness :
    (IdentField.parse_nested { ident := "x", ty := ["T"], with_ := none }
        { path := ["with"], parsedCallable := Except.error "bad",
          span := 3 }).1
      = Except.error { kind := ErrorKind.custom "bad", span := some 3 } ∧
    (IdentField.parse_nested { ident := "x", ty := ["T"], with_ := none }
        { path := ["with"], parsedCallable := Except.error "bad",
          span := 3 }).2
      = { ident := "x", ty := ["T"], with_ := none } :=
  ⟨by decide, c9_parse_nested_atomic_on_error _ _
    { kind := ErrorKind.custom "bad", span := some 3 } (by decide)⟩

/-- Claim C10: require_ident maps some i to ok i for every identifier i, maps
none to the error with the custom message "expected identifier", and returns
an error if and only if its argument is none. -/
theorem c10_require_ident_spec :
    (∀ i : Ident, require_ident (some i) = Except.ok i) ∧
    require_ident none = Except.error (Error.custom "expected identifier") ∧
    ∀ o : Option Ident,
      (∃ e, require_ident o = Except.error e) ↔ o = none := by
  refine ⟨fun i => rfl, rfl, fun o => ?_⟩
  cases o <;> simp [require_ident]
